import Mathlib

/-!
Verification development for the enhanced-CLI tool gateway.

The repository is a JavaScript gateway that mediates between an AI chat
backend and a set of tools reachable either through local API clients or
through hosted Smithery MCP backends.  This file gives a shallow embedding
of the parts of the source relevant to the tool-call lifecycle:

* `SmitheryClient`  — the per-backend availability state machine and the
  fresh-session-per-call transport (`src/src/utils/smithery-client.js`);
* `apiToolsCall`    — the `/api/tools/call` endpoint: the big name switch,
  connection flags, hosted-to-local search fallback and the error envelope
  (`src/unnamed/part_000`, server section);
* `apiToolsList`    — the `/api/tools/list` endpoint;
* `collectToolResults` — the CLI chat loop that executes a batch of parsed
  tool calls and collects one result per request;
* `handleAgentUiRequest` / `convertCLIMessagesToAgentUI` — the gateway chat
  response construction and the message-shape conversion.

External effects (network calls, the AI backend, wall-clock time) are made
explicit parameters: each embedded operation takes the outcomes of the
external calls it may perform (an "oracle") and returns, besides its
result, the updated connection state and the list of external calls it
actually made.  JavaScript strings are modeled by Lean `String`, with the
JS string methods re-implemented over `List Char` so that everything
evaluates by `decide`.
-/

/-! ## JS string primitives over char lists -/

/-- JS `String.prototype.split(sep)` on char lists: splits at every
non-overlapping occurrence of `sep`, left to right.  Structural recursion
on a fuel argument (each step consumes at least one character, so
`fuel = l.length` always suffices and the fuel-exhausted case is
unreachable); fuel keeps the definition kernel-reducible. -/
def jsSplitListAux (sep : List Char) : Nat → List Char → List (List Char)
  | _, [] => [[]]
  | 0, l => [l]
  | fuel + 1, c :: rest =>
    if sep.isPrefixOf (c :: rest) ∧ sep ≠ [] then
      [] :: jsSplitListAux sep fuel ((c :: rest).drop sep.length)
    else
      match jsSplitListAux sep fuel rest with
      | [] => [[c]]
      | g :: gs => (c :: g) :: gs

/-- JS `s.split(sep)`. -/
def jsSplit (s sep : String) : List String :=
  (jsSplitListAux sep.toList s.toList.length s.toList).map (fun l => ⟨l⟩)

/-- JS `String.prototype.replace(/pat/g, rep)` for a literal pattern:
replaces every non-overlapping occurrence left to right, never re-scanning
the replacement text.  Fueled like `jsSplitListAux`. -/
def jsReplaceListAux (pat rep : List Char) : Nat → List Char → List Char
  | _, [] => []
  | 0, l => l
  | fuel + 1, c :: rest =>
    if pat.isPrefixOf (c :: rest) ∧ pat ≠ [] then
      rep ++ jsReplaceListAux pat rep fuel ((c :: rest).drop pat.length)
    else
      c :: jsReplaceListAux pat rep fuel rest

/-- JS `s.replaceAll(pat, rep)` / `s.replace(/pat/g, rep)`. -/
def jsReplaceAll (s pat rep : String) : String :=
  ⟨jsReplaceListAux pat.toList rep.toList s.toList.length s.toList⟩

/-- JS `s.startsWith(pre)`. -/
def jsStartsWith (s pre : String) : Bool :=
  pre.toList.isPrefixOf s.toList

/-- JS `s.substring(n)`: drop the first `n` characters. -/
def jsDropStr (s : String) (n : Nat) : String :=
  ⟨s.toList.drop n⟩

/-- Whether `sub` occurs somewhere in `l` (JS `includes`). -/
def jsIncludesList (sub : List Char) : List Char → Bool
  | [] => sub.isPrefixOf []
  | c :: rest => sub.isPrefixOf (c :: rest) || jsIncludesList sub rest

/-- JS `s.includes(sub)`. -/
def jsIncludes (s sub : String) : Bool :=
  jsIncludesList sub.toList s.toList

/-- JS `s.trim()`: strip whitespace from both ends. -/
def jsTrim (s : String) : String :=
  ⟨((s.toList.dropWhile Char.isWhitespace).reverse.dropWhile
      Char.isWhitespace).reverse⟩

/-- JS truthiness of a possibly-absent string: `undefined` and `""` are
falsy, everything else truthy. -/
def jsTruthy : Option String → Bool
  | none => false
  | some s => s ≠ ""

/-- JS `a || b` for a possibly-absent string `a` with default `b`. -/
def jsOrStr (a : Option String) (b : String) : String :=
  match a with
  | some s => if s = "" then b else s
  | none => b

/-! ## Hosted adapter: `SmitheryClient` (src/src/utils/smithery-client.js)

The client holds one piece of mutable state, the `_isAvailable` boolean
(`true` on construction).  Each public operation opens a fresh transport
session via `createFreshConnection`, uses it, and closes it in a `finally`
block.  We model an operation by the outcomes of the external steps it may
take and make the session lifecycle observable as a list of `SessEvent`s;
session identifiers are drawn from a counter threaded through calls so that
freshness across calls is expressible. -/

/-- Credentials held by a `SmitheryClient` (`apiKey` and `profile`);
`isAvailable()` requires both to be present. -/
structure SmitheryCfg where
  apiKey : Option String
  profile : Option String
deriving DecidableEq, Repr

/-- `SmitheryClient.isAvailable()`: the `_isAvailable` flag conjoined with
presence of both credentials. -/
def SmitheryClient.isAvailable (cfg : SmitheryCfg) (avail : Bool) : Bool :=
  avail && (cfg.apiKey.isSome && cfg.profile.isSome)

/-- One content item of an MCP tool result (`{ text?: string }`). -/
structure ContentItem where
  text : Option String
deriving DecidableEq, Repr

/-- An MCP tool call result as returned by the hosted backend
(`{ content: [{ text }] }`). -/
structure SmitheryResult where
  content : List ContentItem
deriving DecidableEq, Repr

/-- Observable transport-session events of one client operation.  A
`connect` event records the attempt to establish a session (fresh id) and
whether it succeeded; `call` and `close` carry the id of the session they
act on. -/
inductive SessEvent where
  | connect (sid : Nat) (ok : Bool)
  | call (sid : Nat)
  | close (sid : Nat)
deriving DecidableEq, Repr

/-- External outcomes of one `callTool` / `listTools` invocation:
whether `createFreshConnection` succeeds, its error text otherwise, and
the outcome of the actual MCP call over the fresh session. -/
structure CallEffects where
  connectOk : Bool
  connectErr : String
  callOutcome : Except String SmitheryResult
deriving Repr

/-- `SmitheryClient.callTool(name, args)`.

Input: current `_isAvailable` flag, the external outcomes, and the next
fresh session id.  Output: the result (or the thrown error message), the
new `_isAvailable` flag, the session events, and the next fresh id.

Faithful to the source: an early throw when `_isAvailable` is false (no
session opened); otherwise a fresh connection, the call, and a `finally`
close that runs whenever the connection was established, both on success
and on a call exception; on any exception in the `try` the flag is set to
`false` and the error is rethrown wrapped in `Failed to call tool ...`. -/
def SmitheryClient.callTool (avail : Bool) (name : String)
    (eff : CallEffects) (sid : Nat) :
    Except String SmitheryResult × Bool × List SessEvent × Nat :=
  if ¬ avail then
    (.error "Smithery client not available", avail, [], sid)
  else if ¬ eff.connectOk then
    -- `createFreshConnection` threw: `client` is never bound, so the
    -- `finally` block has nothing to close.
    (.error ("Failed to call tool " ++ name ++ ": " ++ eff.connectErr),
      false, [.connect sid false], sid + 1)
  else
    match eff.callOutcome with
    | .ok r =>
        (.ok r, avail, [.connect sid true, .call sid, .close sid], sid + 1)
    | .error e =>
        (.error ("Failed to call tool " ++ name ++ ": " ++ e),
          false, [.connect sid true, .call sid, .close sid], sid + 1)

/-- `SmitheryClient.listTools()`: same session lifecycle and error policy
as `callTool`, with the tool list as payload.  The payload is abstracted to
the call outcome's `SmitheryResult`-free shape: only availability
transitions matter here, so we reuse `CallEffects` and report success as
`.ok`. -/
def SmitheryClient.listToolsStep (avail : Bool) (eff : CallEffects) :
    Bool :=
  if ¬ avail then avail
  else if ¬ eff.connectOk then false
  else
    match eff.callOutcome with
    | .ok _ => avail
    | .error _ => false

/-- Availability transition of `SmitheryClient.callTool` (projection of
`SmitheryClient.callTool`). -/
def SmitheryClient.callToolStep (avail : Bool) (eff : CallEffects) : Bool :=
  if ¬ avail then avail
  else if ¬ eff.connectOk then false
  else
    match eff.callOutcome with
    | .ok _ => avail
    | .error _ => false

/-- Outcomes of `SmitheryClient.initialize()`'s connectivity probe: fresh
connection and a `listTools` over it. -/
structure InitEffects where
  connectOk : Bool
  listOk : Bool
deriving DecidableEq, Repr

/-- `SmitheryClient.initialize()`: probes connectivity with a fresh
session; sets `_isAvailable` to `true` exactly when both the connection
and the probe succeed, to `false` otherwise, and returns the new flag. -/
def SmitheryClient.initializeClient (eff : InitEffects) : Bool :=
  eff.connectOk && eff.listOk

/-- One operation applied to a `SmitheryClient`, with its external
outcomes. -/
inductive SmOp where
  | initOp (eff : InitEffects)
  | listToolsOp (eff : CallEffects)
  | callToolOp (name : String) (eff : CallEffects)

/-- The `_isAvailable` flag after running one operation. -/
def smStep (avail : Bool) : SmOp → Bool
  | .initOp eff => SmitheryClient.initializeClient eff
  | .listToolsOp eff => SmitheryClient.listToolsStep avail eff
  | .callToolOp _ eff => SmitheryClient.callToolStep avail eff

/-- Whether the operation ends in an exception reaching the caller.
`initialize` never throws (it returns `false` on any failure);
`listTools`/`callTool` throw when the flag is down, the connection fails,
or the call fails. -/
def smThrows (avail : Bool) : SmOp → Bool
  | .initOp _ => false
  | .listToolsOp eff =>
      ¬ avail || ¬ eff.connectOk || (match eff.callOutcome with
        | .ok _ => false | .error _ => true)
  | .callToolOp _ eff =>
      ¬ avail || ¬ eff.connectOk || (match eff.callOutcome with
        | .ok _ => false | .error _ => true)

/-! ## Search-result text parsing (server, brave search branches)

The hosted search backend returns results as labeled text blocks
(`Title: ... / Description: ... / URL: ...` separated by blank lines); the
server parses them with string splitting, an HTML-tag-removing regex and
entity decoding. -/

/-- Removal of complete `<...>` groups, the effect of the source's
`replace(/<[^>]*>/g, '')`: a `<` with no later `>` starts no match and is
kept verbatim.  Fueled like `jsSplitListAux`. -/
def stripHtmlListAux : Nat → List Char → List Char
  | _, [] => []
  | 0, l => l
  | fuel + 1, c :: rest =>
    if c = '<' then
      match rest.dropWhile (fun x => x ≠ '>') with
      | [] => c :: rest
      | _ :: after => stripHtmlListAux fuel after
    else
      c :: stripHtmlListAux fuel rest

/-- `description.replace(/<[^>]*>/g, '')`. -/
def stripHtml (s : String) : String :=
  ⟨stripHtmlListAux s.toList.length s.toList⟩

/-- The entity-decoding chain applied to descriptions, in source order:
`&quot;`, `&#x27;`, `&lt;`, `&gt;`, `&amp;`. -/
def decodeEntities (s : String) : String :=
  jsReplaceAll
    (jsReplaceAll (jsReplaceAll (jsReplaceAll (jsReplaceAll s
      "&quot;" "\"") "&#x27;" "'") "&lt;" "<") "&gt;" ">") "&amp;" "&"

/-- One parsed web search result (`{ title, description, url }`). -/
structure SearchItem where
  title : String
  description : String
  url : String
deriving DecidableEq, Repr

/-- Parse one blank-line-separated block: later `Title:`/`Description:`/
`URL:` lines overwrite earlier ones; the block yields an item only when
both title and url are (truthy) nonempty. -/
def parseResultBlock (block : String) : Option SearchItem :=
  let fin := (jsSplit block "\n").foldl
    (fun (acc : String × String × String) line =>
      if jsStartsWith line "Title: " then
        (jsTrim (jsDropStr line 7), acc.2.1, acc.2.2)
      else if jsStartsWith line "Description: " then
        (acc.1, decodeEntities (stripHtml (jsTrim (jsDropStr line 13))), acc.2.2)
      else if jsStartsWith line "URL: " then
        (acc.1, acc.2.1, jsTrim (jsDropStr line 5))
      else acc)
    ("", "", "")
  if fin.1 ≠ "" ∧ fin.2.2 ≠ "" then some ⟨fin.1, fin.2.1, fin.2.2⟩ else none

/-- Parse the whole hosted-search text payload: split on blank lines, keep
blocks with nonempty trimmed content, parse each block. -/
def parseSearchText (text : String) : List SearchItem :=
  ((jsSplit text "\n\n").filter (fun b => jsTrim b ≠ "")).filterMap
    parseResultBlock

/-- The `content[0].text` access guarded by JS truthiness
(`result.content && result.content[0] && result.content[0].text`):
`none` when the chain is falsy at any point. -/
def firstText (r : SmitheryResult) : Option String :=
  match r.content with
  | [] => none
  | item :: _ =>
    match item.text with
    | some t => if t = "" then none else some t
    | none => none

/-! ## Server data model (src/unnamed/part_000, server section) -/

/-- A tool-call argument object: field name to value.  Values are kept as
strings; the endpoints only thread them through. -/
abbrev Params := List (String × String)

/-- JS property access `params.k` (`none` = `undefined`). -/
def getParam (p : Params) (k : String) : Option String :=
  (p.find? (fun kv => kv.1 == k)).map (·.2)

/-- JS spread-with-override `{ ...params, k: v }`. -/
def setParam (p : Params) (k v : String) : Params := (k, v) :: p

/-- JS `a || b` on possibly-absent values. -/
def jsOrOpt (a b : Option String) : Option String :=
  if jsTruthy a then a else b

/-- The environment variables the endpoints consult.  `smitheryCreds`
stands for `SMITHERY_API_KEY && SMITHERY_PROFILE` both being set. -/
structure Env where
  smitheryCreds : Bool
  ordiscanApiKey : Option String
  alphaVantageApiKey : Option String
  braveApiKey : Option String
deriving DecidableEq, Repr

/-- The process-wide connection flags (`smitheryConnected`,
`ordiscanConnected`, `stockAnalysisConnected`). -/
structure Conn where
  smithery : Bool
  ordiscan : Bool
  stock : Bool
deriving DecidableEq, Repr

/-- The parsed `data` of an ordiscan / stock-analysis result:
`JSON.parse(text)` falling back to `{ data: text }` is a deterministic
function of the text, and the empty object is used when the result has no
text; we represent the outcome by the text itself (`none` = the empty
object `{}`). -/
abbrev ParsedData := Option String

/-- The AI backend's plain chat response (`{ content, toolCalls? }`),
with tool calls reduced to their names. -/
structure ChatResp where
  content : String
  toolCalls : Option (List String)
deriving DecidableEq, Repr

/-- Brave Search API `web` section (`{ total?, results? }`). -/
structure BraveWeb where
  total : Option Nat
  results : Option (List SearchItem)
deriving DecidableEq, Repr

/-- Brave Search API response (`{ web? }`). -/
structure BraveData where
  web : Option BraveWeb
deriving DecidableEq, Repr

/-- The distinct result-object shapes built by the `/api/tools/call`
switch.  Constructors correspond to the object literals in the source:
`search` is the `{query, total, results, source}` shape shared by all
search paths; `rawPayload` is a `toolResults[0]` payload passed through;
`errorObj` is `{error}`; `tokensMsg` is `{tokens: [], message}`;
`balancesMsg` is `{address, balances: [], message}`; `chatRes` is
`{response, toolsUsed}`; `ordiscanTagged field v` is the ordiscan
`{<field>: v, data, tool, source: 'ordiscan'}` family; `stockSym` /
`stockAlerts` / `stockGeneric` are the stock-analysis shapes with constant
`source: 'stock-analysis'`. -/
inductive ToolResult where
  | search (query : Option String) (total : Nat) (results : List SearchItem)
      (source : String)
  | rawPayload (v : String)
  | errorObj (message : String)
  | tokensMsg (message : String)
  | balancesMsg (address : Option String) (message : String)
  | chatRes (response : String) (toolsUsed : List String)
  | ordiscanTagged (field : String) (value : Option String)
      (data : ParsedData) (tool : String)
  | ordiscanGeneric (data : ParsedData) (tool : String)
  | stockSym (symbol : Option String) (data : ParsedData) (tool : String)
  | stockAlerts (symbol : Option String) (alerts : ParsedData) (tool : String)
  | stockGeneric (data : ParsedData) (tool : String)
deriving DecidableEq, Repr

/-- The HTTP reply of `/api/tools/call`: `{success: true, result, tool}`
with status 200, or `{success: false, error, tool}` with status 500. -/
structure Envelope where
  status : Nat
  success : Bool
  result : Option ToolResult
  error : Option String
  tool : String
deriving DecidableEq, Repr

/-- External calls the `/api/tools/call` handler can make, recorded in the
order they are issued. -/
inductive ExtCall where
  | smitheryInitProbe
  | ordiscanInitProbe
  | stockInitProbe
  | smitheryTool (name : String) (params : Params)
  | ordiscanTool (name : String) (params : Params)
  | stockTool (name : String) (params : Params)
  | braveLocal (params : Params)
  | hustle
deriving DecidableEq, Repr

/-- Outcomes of the external calls the server can make.  Each field gives
the outcome the environment would produce for that call; `Except.error`
carries the thrown error's message. -/
structure ServerOracle where
  smitheryInitEff : Bool
  ordiscanInitEff : Bool
  stockInitEff : Bool
  smitheryCall : String → Params → Except String SmitheryResult
  ordiscanCall : String → Params → Except String SmitheryResult
  stockCall : String → Params → Except String SmitheryResult
  braveApi : Params → Except String BraveData
  hustleRugcheck : Params → Except String (List String)
  hustleTrending : Params → Except String (List String)
  hustleWallet : Params → Except String (List String)
  hustleChatCall : Params → Except String ChatResp

/-- Result of one branch of the switch before the endpoint wraps it:
tool result or thrown error, updated connection flags, external calls
made. -/
abbrev BranchOut := Except String ToolResult × Conn × List ExtCall

/-- `initializeSmithery()`: skipped without credentials; otherwise probes
the hosted backend and records the outcome in `smitheryConnected`. -/
def runInitSmithery (env : Env) (o : ServerOracle) (st : Conn) :
    Bool × Conn × List ExtCall :=
  if env.smitheryCreds then
    (o.smitheryInitEff, { st with smithery := o.smitheryInitEff },
      [.smitheryInitProbe])
  else (false, st, [])

/-- `initializeOrdiscan()`: requires smithery credentials, the ordiscan
API key, and hence an ordiscan client; otherwise returns false without a
probe. -/
def runInitOrdiscan (env : Env) (o : ServerOracle) (st : Conn) :
    Bool × Conn × List ExtCall :=
  if env.smitheryCreds && env.ordiscanApiKey.isSome then
    (o.ordiscanInitEff, { st with ordiscan := o.ordiscanInitEff },
      [.ordiscanInitProbe])
  else (false, st, [])

/-- `initializeStockAnalysis()`: requires smithery credentials and the
Alpha Vantage API key. -/
def runInitStock (env : Env) (o : ServerOracle) (st : Conn) :
    Bool × Conn × List ExtCall :=
  if env.smitheryCreds && env.alphaVantageApiKey.isSome then
    (o.stockInitEff, { st with stock := o.stockInitEff }, [.stockInitProbe])
  else (false, st, [])

/-- `BraveSearchClient.search`: wraps any underlying error in
`Brave Search API error: ...`. -/
def braveClientSearch (o : ServerOracle) (params : Params) :
    Except String BraveData :=
  match o.braveApi params with
  | .ok d => .ok d
  | .error e => .error ("Brave Search API error: " ++ e)

/-- `searchResult.web?.total || 0`. -/
def braveTotal (d : BraveData) : Nat := ((d.web.map BraveWeb.total).join).getD 0

/-- `searchResult.web?.results?.map(r => ({title, description, url})) || []`. -/
def braveItems (d : BraveData) : List SearchItem :=
  (((d.web.map BraveWeb.results).join).map
    (List.map (fun r => ⟨r.title, r.description, r.url⟩))).getD []

/-! ## `/api/tools/call`: the name switch -/

/-- The `brave-search` / `brave_web_search` case.  The condition
`(smitheryConnected || await initializeSmithery()) && name === 'brave_web_search'`
is evaluated left to right: the initialization attempt (and its side
effect on `smitheryConnected`) happens for either spelling whenever the
flag is down, but the hosted path is taken only for the underscored
spelling.  On a hosted exception the flag is cleared and, when a local
Brave API key is configured, the local client is tried with source
`local-fallback`; a local-fallback exception propagates to the endpoint's
catch unwrapped. -/
def braveBranch (name : String) (params : Params) (env : Env) (st : Conn)
    (o : ServerOracle) : BranchOut :=
  let step := if st.smithery then (true, st, ([] : List ExtCall))
              else runInitSmithery env o st
  let conn0 := step.1
  let st0 := step.2.1
  let calls0 := step.2.2
  if conn0 && (name == "brave_web_search") then
    let calls1 := calls0 ++ [.smitheryTool "brave_web_search" params]
    match o.smitheryCall "brave_web_search" params with
    | .ok r =>
        let parsed := ((firstText r).map parseSearchText).getD []
        (.ok (.search (getParam params "query") parsed.length parsed
          "smithery"), st0, calls1)
    | .error e =>
        let st1 := { st0 with smithery := false }
        if env.braveApiKey.isSome then
          let calls2 := calls1 ++ [.braveLocal params]
          match braveClientSearch o params with
          | .ok d =>
              (.ok (.search (getParam params "query") (braveTotal d)
                (braveItems d) "local-fallback"), st1, calls2)
          | .error e2 => (.error e2, st1, calls2)
        else
          (.error ("Smithery Brave Search failed and no local API key available: "
            ++ e), st1, calls1)
  else if env.braveApiKey.isSome then
    let calls1 := calls0 ++ [.braveLocal params]
    match braveClientSearch o params with
    | .ok d =>
        (.ok (.search (getParam params "query") (braveTotal d) (braveItems d)
          "local"), st0, calls1)
    | .error e => (.error ("Local Brave Search failed: " ++ e), st0, calls1)
  else
    (.error "Brave Search not available - no Smithery connection and no local API key configured",
      st0, calls0)

/-- The `brave_local_search` case: hosted only, no local fallback. -/
def braveLocalBranch (params : Params) (env : Env) (st : Conn)
    (o : ServerOracle) : BranchOut :=
  let step := if st.smithery then (true, st, ([] : List ExtCall))
              else runInitSmithery env o st
  let conn0 := step.1
  let st0 := step.2.1
  let calls0 := step.2.2
  if conn0 then
    let calls1 := calls0 ++ [.smitheryTool "brave_local_search" params]
    match o.smitheryCall "brave_local_search" params with
    | .ok r =>
        let parsed := ((firstText r).map parseSearchText).getD []
        (.ok (.search (getParam params "query") parsed.length parsed
          "smithery"), st0, calls1)
    | .error e =>
        (.error ("Smithery Local Search failed: " ++ e),
          { st0 with smithery := false }, calls1)
  else
    (.error "Smithery Local Search not available - no Smithery connection",
      st0, calls0)

/-- The `rugcheck` case: a headless AI-backend call whose first tool
result is passed through; a throw propagates to the endpoint catch. -/
def rugcheckBranch (params : Params) (st : Conn) (o : ServerOracle) :
    BranchOut :=
  match o.hustleRugcheck params with
  | .ok l =>
      (.ok (match l.head? with
        | some v => .rawPayload v
        | none => .errorObj "No results from rugcheck"), st, [.hustle])
  | .error e => (.error e, st, [.hustle])

/-- The `trending-tokens` case: its inner catch converts a throw into a
success result carrying the error message. -/
def trendingBranch (params : Params) (st : Conn) (o : ServerOracle) :
    BranchOut :=
  match o.hustleTrending params with
  | .ok l =>
      (.ok (match l.head? with
        | some v => .rawPayload v
        | none => .tokensMsg "Unable to fetch trending tokens"), st, [.hustle])
  | .error e => (.ok (.tokensMsg ("Error: " ++ e)), st, [.hustle])

/-- The `wallet-balance` case: same inner-catch policy as
`trending-tokens`, echoing the queried address. -/
def walletBranch (params : Params) (st : Conn) (o : ServerOracle) :
    BranchOut :=
  match o.hustleWallet params with
  | .ok l =>
      (.ok (match l.head? with
        | some v => .rawPayload v
        | none => .balancesMsg (getParam params "address")
            "Unable to fetch wallet balance"), st, [.hustle])
  | .error e =>
      (.ok (.balancesMsg (getParam params "address") ("Error: " ++ e)),
        st, [.hustle])

/-- The `crypto-chat` case: plain AI chat; its catch produces a success
result with an apology message. -/
def cryptoChatBranch (params : Params) (st : Conn) (o : ServerOracle) :
    BranchOut :=
  match o.hustleChatCall params with
  | .ok r => (.ok (.chatRes r.content (r.toolCalls.getD [])), st, [.hustle])
  | .error e =>
      (.ok (.chatRes ("Sorry, I encountered an error: " ++ e) []),
        st, [.hustle])

/-- The ordiscan result-shaping chain: the first matching `name.includes`
check picks the echoed field. -/
def formatOrdiscan (name : String) (params : Params) (pd : ParsedData) :
    ToolResult :=
  if jsIncludes name "address" then
    .ordiscanTagged "address" (getParam params "address") pd name
  else if jsIncludes name "inscription" then
    .ordiscanTagged "inscription"
      (jsOrOpt (getParam params "id") (getParam params "number")) pd name
  else if jsIncludes name "brc20" then
    .ordiscanTagged "token" (getParam params "tick") pd name
  else if jsIncludes name "rune" then
    .ordiscanTagged "rune"
      (jsOrOpt (getParam params "name") (getParam params "runeName")) pd name
  else if jsIncludes name "collection" then
    .ordiscanTagged "collection" (getParam params "slug") pd name
  else if jsIncludes name "tx" then
    .ordiscanTagged "transaction" (getParam params "txid") pd name
  else if jsIncludes name "utxo" then
    .ordiscanTagged "utxo" (getParam params "utxo") pd name
  else if jsIncludes name "sat" then
    .ordiscanTagged "satoshi" (getParam params "ordinal") pd name
  else .ordiscanGeneric pd name

/-- The shared body of the 29 ordiscan cases: connection check with lazy
re-initialization, API-key injection (a missing key throws inside the
inner try), the hosted call, result shaping; the inner catch clears
`ordiscanConnected` and rethrows wrapped. -/
def ordiscanBranch (name : String) (params : Params) (env : Env) (st : Conn)
    (o : ServerOracle) : BranchOut :=
  let step := if st.ordiscan then (true, st, ([] : List ExtCall))
              else runInitOrdiscan env o st
  let conn0 := step.1
  let st0 := step.2.1
  let calls0 := step.2.2
  if conn0 then
    match env.ordiscanApiKey with
    | none =>
        (.error ("Ordiscan " ++ name ++
            " failed: ORDISCAN_API_KEY environment variable is required but not set"),
          { st0 with ordiscan := false }, calls0)
    | some key =>
        let ps := setParam params "apiKey" key
        let calls1 := calls0 ++ [.ordiscanTool name ps]
        match o.ordiscanCall name ps with
        | .ok r => (.ok (formatOrdiscan name params (firstText r)), st0, calls1)
        | .error e =>
            (.error ("Ordiscan " ++ name ++ " failed: " ++ e),
              { st0 with ordiscan := false }, calls1)
  else (.error (name ++ " not available - no Ordiscan connection"), st0, calls0)

/-- Tool-name normalization for the stock-analysis backend:
`name.replace(/_/g, '-')`. -/
def normalizeStockName (name : String) : String :=
  ⟨name.toList.map (fun c => if c = '_' then '-' else c)⟩

/-- The stock-analysis result-shaping chain.  Note the checks are against
the raw (un-normalized) name: `get_stock_data` contains neither
`stock-data` nor `daily` nor `alerts` and falls into the generic shape. -/
def formatStock (name : String) (params : Params) (pd : ParsedData) :
    ToolResult :=
  if jsIncludes name "stock-data" || jsIncludes name "daily" then
    .stockSym (getParam params "symbol") pd name
  else if jsIncludes name "alerts" then
    .stockAlerts (getParam params "symbol") pd name
  else .stockGeneric pd name

/-- The shared body of the six stock-analysis cases: connection check with
lazy re-initialization, Alpha Vantage key injection, hyphen normalization
of the tool name for the hosted call, result shaping; the inner catch
clears `stockAnalysisConnected` and rethrows wrapped. -/
def stockBranch (name : String) (params : Params) (env : Env) (st : Conn)
    (o : ServerOracle) : BranchOut :=
  let step := if st.stock then (true, st, ([] : List ExtCall))
              else runInitStock env o st
  let conn0 := step.1
  let st0 := step.2.1
  let calls0 := step.2.2
  if conn0 then
    match env.alphaVantageApiKey with
    | none =>
        (.error ("Stock Analysis " ++ name ++
            " failed: ALPHA_VANTAGE_API_KEY environment variable is required but not set"),
          { st0 with stock := false }, calls0)
    | some key =>
        let ps := setParam params "alphaVantageApiKey" key
        let calls1 := calls0 ++ [.stockTool (normalizeStockName name) ps]
        match o.stockCall (normalizeStockName name) ps with
        | .ok r => (.ok (formatStock name params (firstText r)), st0, calls1)
        | .error e =>
            (.error ("Stock Analysis " ++ name ++ " failed: " ++ e),
              { st0 with stock := false }, calls1)
  else
    (.error (name ++ " not available - no Stock Analysis connection"),
      st0, calls0)

/-- The 29 ordiscan case labels of the switch. -/
def ordiscanToolNames : List String :=
  ["ordiscan_address_brc20_activity", "ordiscan_address_brc20",
   "ordiscan_brc20_info", "ordiscan_brc20_list", "ordiscan_collection_info",
   "ordiscan_collection_inscriptions", "ordiscan_collections_list",
   "ordiscan_inscription_info", "ordiscan_inscription_traits",
   "ordiscan_inscription_transfers", "ordiscan_inscriptions_activity",
   "ordiscan_inscriptions_detail", "ordiscan_inscriptions_list",
   "ordiscan_address_inscriptions", "ordiscan_address_rare_sats",
   "ordiscan_rune_market", "ordiscan_rune_name_unlock",
   "ordiscan_runes_activity", "ordiscan_address_runes",
   "ordiscan_runes_list", "ordiscan_sat_info", "ordiscan_tx_info",
   "ordiscan_tx_inscription_transfers", "ordiscan_tx_inscriptions",
   "ordiscan_tx_runes", "ordiscan_utxo_rare_sats",
   "ordiscan_utxo_sat_ranges", "ordiscan_address_utxos", "ordiscan_main"]

/-- The six stock-analysis case labels of the switch. -/
def stockToolNames : List String :=
  ["get-stock-data", "get_stock_data", "get-stock-alerts",
   "get_stock_alerts", "get-daily-stock-data", "get_daily_stock_data"]

/-- Which switch branch a tool name selects (`default` = `.unknown`). -/
inductive ToolBranch where
  | brave | braveLocalS | rugcheckB | trendingB | walletB | cryptoChatB
  | ordiscanB | stockB | unknown
deriving DecidableEq, Repr

/-- The case-label grouping of the switch in `/api/tools/call`. -/
def branchOf (name : String) : ToolBranch :=
  if name = "brave-search" ∨ name = "brave_web_search" then .brave
  else if name = "brave_local_search" then .braveLocalS
  else if name = "rugcheck" then .rugcheckB
  else if name = "trending-tokens" then .trendingB
  else if name = "wallet-balance" then .walletB
  else if name = "crypto-chat" then .cryptoChatB
  else if name ∈ ordiscanToolNames then .ordiscanB
  else if name ∈ stockToolNames then .stockB
  else .unknown

/-- Everything the `/api/tools/call` handler produces for one request:
the HTTP reply, the connection flags afterwards, and the external calls
made. -/
structure CallOutput where
  resp : Envelope
  conn : Conn
  calls : List ExtCall
deriving DecidableEq, Repr

/-- The endpoint's wrapping of a branch outcome: a success body
`{success: true, result, tool}`, or the catch-all
`{success: false, error: error.message || 'Failed to execute tool ...',
tool}` with HTTP status 500. -/
def wrapEnvelope (name : String) : BranchOut → CallOutput
  | (.ok r, st, calls) => ⟨⟨200, true, some r, none, name⟩, st, calls⟩
  | (.error e, st, calls) =>
      ⟨⟨500, false, none,
        some (jsOrStr (some e) ("Failed to execute tool " ++ name)), name⟩,
        st, calls⟩

/-- The `/api/tools/call` handler (src/unnamed/part_000): dispatches on
the tool name, never lets a branch exception escape — the default case
throws `Unknown tool: ...` which the catch converts into the failure
envelope with no external call made. -/
def apiToolsCall (name : String) (params : Params) (env : Env) (st : Conn)
    (o : ServerOracle) : CallOutput :=
  wrapEnvelope name (match branchOf name with
    | .brave => braveBranch name params env st o
    | .braveLocalS => braveLocalBranch params env st o
    | .rugcheckB => rugcheckBranch params st o
    | .trendingB => trendingBranch params st o
    | .walletB => walletBranch params st o
    | .cryptoChatB => cryptoChatBranch params st o
    | .ordiscanB => ordiscanBranch name params env st o
    | .stockB => stockBranch name params env st o
    | .unknown => (.error ("Unknown tool: " ++ name), st, []))

/-! ## `/api/tools/list` (src/unnamed/part_000) -/

/-- One entry of the tool-listing response: name, description, parameter
schema (summarized by its required-field list and property names — the
documentation strings inside the schema are elided), and the optional
source tag. -/
structure ToolEntry where
  name : String
  description : String
  required : List String
  propNames : List String
  source : Option String
deriving DecidableEq, Repr

/-- A tool descriptor reported by a hosted backend (`{name, description,
inputSchema}`), with the schema summarized as in `ToolEntry`. -/
structure RemoteTool where
  name : String
  description : String
  required : List String
  propNames : List String
deriving DecidableEq, Repr

/-- `tools.push({name, description, parameters: inputSchema, source})`. -/
def remoteEntry (source : String) (t : RemoteTool) : ToolEntry :=
  ⟨t.name, t.description, t.required, t.propNames, some source⟩

/-- The four statically declared tools at the top of the handler. -/
def staticTools : List ToolEntry :=
  [⟨"rugcheck", "Perform a security analysis (rugcheck) on a specific token",
    ["token"], ["token", "chain"], none⟩,
   ⟨"trending-tokens", "Get trending tokens on a specific blockchain",
    [], ["chain", "limit"], none⟩,
   ⟨"wallet-balance", "Check wallet balance for a specific address",
    ["address"], ["address", "chain"], none⟩,
   ⟨"crypto-chat", "Chat with the AgentHustle AI about crypto and web3 topics",
    ["message"], ["message"], none⟩]

/-- The local `brave-search` descriptor appended when no hosted search
backend is connected and a local key is present. -/
def localBraveEntry : ToolEntry :=
  ⟨"brave-search", "Search the web using Brave Search API",
    ["query"], ["query", "count", "safesearch"], some "local"⟩

/-- The `_isAvailable` flags of the three `SmitheryClient` instances held
by the server. -/
structure ClientAvail where
  smithery : Bool
  ordiscan : Bool
  stock : Bool
deriving DecidableEq, Repr

/-- Outcomes of the three hosted `listTools()` fetches. -/
structure ListOracle where
  smitheryTools : Except String (List RemoteTool)
  ordiscanTools : Except String (List RemoteTool)
  stockTools : Except String (List RemoteTool)
deriving Repr

/-- `client.isAvailable()` for the server's clients: the internal flag
plus the shared smithery credentials. -/
def clientIsAvail (env : Env) (flag : Bool) : Bool :=
  flag && env.smitheryCreds

/-- The smithery block of the `/api/tools/list` handler: when the backend
is connected and its client available, fetch its tools inside a try/catch
— a fetch error contributes nothing and clears `smitheryConnected`, the
request itself never fails. -/
def smitheryListBlock (env : Env) (avail : ClientAvail) (o : ListOracle)
    (st : Conn) : List ToolEntry × Conn :=
  if st.smithery && clientIsAvail env avail.smithery then
    match o.smitheryTools with
    | .ok ts => (ts.map (remoteEntry "smithery"), st)
    | .error _ => ([], { st with smithery := false })
  else ([], st)

/-- The ordiscan block, with the same try/catch policy; the condition also
carries the key-presence conjunct under which the (conditionally created)
ordiscan client exists. -/
def ordiscanListBlock (env : Env) (avail : ClientAvail) (o : ListOracle)
    (st : Conn) : List ToolEntry × Conn :=
  if st.ordiscan && (env.ordiscanApiKey.isSome &&
      clientIsAvail env avail.ordiscan) then
    match o.ordiscanTools with
    | .ok ts => (ts.map (remoteEntry "ordiscan"), st)
    | .error _ => ([], { st with ordiscan := false })
  else ([], st)

/-- The stock-analysis block, analogous to the ordiscan one. -/
def stockListBlock (env : Env) (avail : ClientAvail) (o : ListOracle)
    (st : Conn) : List ToolEntry × Conn :=
  if st.stock && (env.alphaVantageApiKey.isSome &&
      clientIsAvail env avail.stock) then
    match o.stockTools with
    | .ok ts => (ts.map (remoteEntry "stock-analysis"), st)
    | .error _ => ([], { st with stock := false })
  else ([], st)

/-- The `/api/tools/list` handler: static tools, then each connected
backend's tools (each block isolated in its own try/catch), then the local
search fallback if no hosted search backend is connected once the blocks
have run. -/
def apiToolsList (env : Env) (st : Conn) (avail : ClientAvail)
    (o : ListOracle) : List ToolEntry × Conn :=
  let s := smitheryListBlock env avail o st
  let od := ordiscanListBlock env avail o s.2
  let stk := stockListBlock env avail o od.2
  let fallback :=
    if env.braveApiKey.isSome && !stk.2.smithery then [localBraveEntry]
    else []
  (staticTools ++ s.1 ++ od.1 ++ stk.1 ++ fallback, stk.2)

/-! ## Argument validation (spec §4.3 step 3)

Modelled from the spec: the Dispatcher is specified to validate arguments
against the descriptor's parameter schema before dispatch and to
short-circuit to `Failure{InvalidArguments}` on violation.  No such
validator exists in the source (`/api/tools/call` destructures
`{name, params}` and dispatches immediately); this definition renders the
spec's intended check — every schema-required field present — so the claim
can be stated against `apiToolsCall`. -/
def validateArguments (required : List String) (params : Params) : Bool :=
  required.all (fun k => (getParam params k).isSome)

/-! ## CLI chat-mode tool loop (src/unnamed/part_000, CLI section)

`handleChatMode` parses tool calls from the AI reply, then iterates over
the batch: for each request it looks the name up in `availableTools`,
posts to `/api/tools/call`, and pushes exactly one entry onto
`toolResults` on every control path — HTTP success with a success body,
HTTP success with a failure body, HTTP throw (axios rejects non-2xx
status), or name not found. -/

/-- One parsed tool-call request (`{name, arguments}` from
`parseToolCalls`). -/
structure ChatToolCall where
  name : String
  arguments : Params
deriving DecidableEq, Repr

/-- One collected entry of `toolResults`. -/
structure CLIToolResult where
  toolName : String
  success : Bool
  result : Option ToolResult
  error : Option String
deriving DecidableEq, Repr

/-- The loop body for one request: `out` is the HTTP outcome of the
`/api/tools/call` round trip (`Except.error` = the axios throw, carrying
`error.message`). -/
def execChatToolCall (availNames : List String) (tc : ChatToolCall)
    (out : Except String Envelope) : CLIToolResult :=
  if tc.name ∈ availNames then
    match out with
    | .ok d =>
        if d.success then ⟨tc.name, true, d.result, none⟩
        else ⟨tc.name, false, none, some (jsOrStr d.error "Unknown error")⟩
    | .error m => ⟨tc.name, false, none, some m⟩
  else
    ⟨tc.name, false, none,
      some ("Tool \"" ++ tc.name ++ "\" not found")⟩

/-- The whole loop: one collected result per request, in request order.
The batch pairs each parsed request with the outcome its HTTP round trip
would produce. -/
def collectToolResults (availNames : List String)
    (batch : List (ChatToolCall × Except String Envelope)) :
    List CLIToolResult :=
  batch.map (fun p => execChatToolCall availNames p.1 p.2)

/-! ## Agent UI gateway (src/unnamed/part_000, `/api/agentui/chat`) -/

/-- The AI backend's reply object as consumed by `handleAgentUiRequest`
(`content`, `message`, `messageId`, `usage` — the last kept as an
uninterpreted string). -/
structure AIResponse where
  content : Option String
  message : Option String
  messageId : Option String
  usage : Option String
deriving DecidableEq, Repr

/-- The gateway's response message: `role`, `content`, `created_at`,
optional `messageId` and `usage`, and the `error` marker (`false` = field
absent). -/
structure AgentUiMessage where
  role : String
  content : String
  created_at : Nat
  messageId : Option String
  usage : Option String
  error : Bool
deriving DecidableEq, Repr

/-- `handleAgentUiRequest`: sends the user message to the AI backend and
shapes the reply.  `now` is the wall-clock reading (`Date.now()`), `ai`
the backend call's outcome.  On success: content is
`aiResponse.content || aiResponse.message || <greeting>`, `messageId` is
`aiResponse.messageId || 'msg-' + Date.now()`.  The catch returns (never
throws) the assistant-shaped error message with `error: true`. -/
def handleAgentUiRequest (now : Nat) (ai : Except String AIResponse) :
    AgentUiMessage :=
  match ai with
  | .ok r =>
      ⟨"assistant",
        jsOrStr r.content (jsOrStr r.message
          "I received your message and I'm here to help!"),
        now,
        some (jsOrStr r.messageId ("msg-" ++ toString now)),
        r.usage,
        false⟩
  | .error e =>
      ⟨"assistant", "Sorry, I encountered an error: " ++ e, now, none, none,
        true⟩

/-- An HTTP reply of the agent-UI chat endpoint. -/
structure AgentUiReply where
  status : Nat
  body : AgentUiMessage
deriving DecidableEq, Repr

/-- The `/api/agentui/chat` handler: since `handleAgentUiRequest` catches
internally and always returns a message, the endpoint's own catch is
unreachable; it relays the message with status 500 exactly when the
message carries the error marker. -/
def agentUiChatEndpoint (now : Nat) (ai : Except String AIResponse) :
    AgentUiReply :=
  let r := handleAgentUiRequest now ai
  if r.error then ⟨500, r⟩ else ⟨200, r⟩

/-! ## CLI-to-AgentUI message conversion
(src/my-cli-frontend `cli-backend` api, src/unnamed/part_004) -/

/-- `{ name, arguments }` inside a CLI tool-call entry; `arguments` is the
JSON-serialized argument object. -/
structure CLIFnCall where
  name : String
  arguments : String
deriving DecidableEq, Repr

/-- One `tool_calls` entry of a CLI backend message
(`{id, type, function}`). -/
structure CLIToolCallMsg where
  id : String
  type : String
  function : CLIFnCall
deriving DecidableEq, Repr

/-- A CLI backend message (`role`, `content`, `created_at`, optional
`tool_calls` / `tool_call_id` / `tool_name`). -/
structure CLIBackendMessage where
  role : String
  content : Option String
  created_at : Nat
  tool_calls : Option (List CLIToolCallMsg)
  tool_call_id : Option String
  tool_name : Option String
deriving DecidableEq, Repr

/-- An Agent UI tool-call entry.  `toolArgsSrc` stands for the `tool_args`
object: `JSON.parse` is a deterministic function of the serialized
arguments, so the source string represents its result (`none` = the
literal empty object used for tool-result messages). -/
structure AgentUIToolCall where
  role : String
  content : String
  tool_call_id : String
  tool_name : String
  toolArgsSrc : Option String
  tool_call_error : Bool
  metricsTime : Nat
  created_at : Nat
deriving DecidableEq, Repr

/-- An Agent UI chat message as built by the conversion. -/
structure PlaygroundChatMessage where
  role : String
  content : String
  created_at : Nat
  streamingError : Bool
  tool_calls : Option (List AgentUIToolCall)
deriving DecidableEq, Repr

/-- The per-message body of `convertCLIMessagesToAgentUI`: role renaming
(`assistant` → `agent`), content defaulting, the assistant-side
`tool_calls` map (guarded by presence and nonemptiness), and the
tool-result override (guarded by role `tool` and truthy
`tool_call_id` / `tool_name`, which then overwrites `tool_calls`). -/
def convertCLIMessageToAgentUI (msg : CLIBackendMessage) :
    PlaygroundChatMessage :=
  let base : PlaygroundChatMessage :=
    ⟨if msg.role = "assistant" then "agent" else msg.role,
      jsOrStr msg.content "", msg.created_at, false, none⟩
  let withCalls :=
    match msg.tool_calls with
    | some tcs =>
        if tcs.length > 0 then
          { base with tool_calls := some (tcs.map (fun tc =>
              ⟨"tool", tc.function.arguments, tc.id, tc.function.name,
                some tc.function.arguments, false, 0, msg.created_at⟩)) }
        else base
    | none => base
  if msg.role = "tool" ∧ jsTruthy msg.tool_call_id ∧ jsTruthy msg.tool_name
  then
    { withCalls with tool_calls := some ([⟨"tool", jsOrStr msg.content "",
        msg.tool_call_id.getD "", msg.tool_name.getD "", none, false, 0,
        msg.created_at⟩]) }
  else withCalls

/-- `convertCLIMessagesToAgentUI`: a map of the per-message conversion
over the list; it consults nothing but its argument. -/
def convertCLIMessagesToAgentUI (msgs : List CLIBackendMessage) :
    List PlaygroundChatMessage :=
  msgs.map convertCLIMessageToAgentUI

/-- Total external-call time of a handler run, given any duration
assignment for the individual calls; a run that makes no external call
has elapsed time 0 under every assignment. -/
def elapsedOf (calls : List ExtCall) (dur : ExtCall → Nat) : Nat :=
  (calls.map dur).sum

/-! ## Auxiliary projections and concrete scenarios used in the theorems -/

/-- Whether an `SmOp` is one of the two call-shaped operations
(`listTools` / `callTool`), as opposed to `initialize`. -/
def isCallOp : SmOp → Bool
  | .initOp _ => false
  | .listToolsOp _ => true
  | .callToolOp _ _ => true

/-- The session id an event refers to. -/
def sessId : SessEvent → Nat
  | .connect s _ => s
  | .call s => s
  | .close s => s

/-- Whether a branch outcome is a success (the endpoint replies
`success: true`). -/
def branchOk : Except String ToolResult → Bool
  | .ok _ => true
  | .error _ => false

/-- The shape (object-literal family) of a tool result, used to compare
results across alias spellings. -/
def resultShape : ToolResult → String
  | .search _ _ _ _ => "search"
  | .rawPayload _ => "rawPayload"
  | .errorObj _ => "errorObj"
  | .tokensMsg _ => "tokensMsg"
  | .balancesMsg _ _ => "balancesMsg"
  | .chatRes _ _ => "chatRes"
  | .ordiscanTagged _ _ _ _ => "ordiscanTagged"
  | .ordiscanGeneric _ _ => "ordiscanGeneric"
  | .stockSym _ _ _ => "stockSym"
  | .stockAlerts _ _ _ => "stockAlerts"
  | .stockGeneric _ _ => "stockGeneric"

/-- Scenario: full credentials, hosted search connected, local Brave key
present. -/
def envA : Env := ⟨true, none, some "AVKEY", some "BKEY"⟩

/-- Scenario: no hosted credentials, local Brave key present. -/
def envC : Env := ⟨false, none, none, some "BKEY"⟩

/-- Scenario connection flags: hosted search connected. -/
def stA : Conn := ⟨true, false, false⟩

/-- Scenario connection flags: nothing connected. -/
def stC : Conn := ⟨false, false, false⟩

/-- A hosted search reply in the labeled-text format the server parses. -/
def smText : String :=
  "Title: Cat\nDescription: A <b>cat</b>\nURL: https://example.com"

/-- The hosted reply object carrying `smText`. -/
def smOkResult : SmitheryResult := ⟨[⟨some smText⟩]⟩

/-- Oracle: every hosted/stock/local call succeeds with fixed data, the
AI-backend calls fail (they are irrelevant to the scenarios using this
oracle). -/
def oracleA : ServerOracle :=
  ⟨true, true, true,
    fun _ _ => .ok smOkResult,
    fun _ _ => .ok smOkResult,
    fun _ _ => .ok smOkResult,
    fun _ => .ok ⟨some ⟨some 1, some [⟨"Cat", "A cat", "https://example.com"⟩]⟩⟩,
    fun _ => .error "x", fun _ => .error "x", fun _ => .error "x",
    fun _ => .error "x"⟩

/-- Oracle: the hosted search call and the local Brave API both throw. -/
def oracleB : ServerOracle :=
  ⟨true, true, true,
    fun _ _ => .error "boom",
    fun _ _ => .error "boom",
    fun _ _ => .error "boom",
    fun _ => .error "network down",
    fun _ => .error "x", fun _ => .error "x", fun _ => .error "x",
    fun _ => .error "x"⟩

/-! ## Theorems -/

/-- A string with a nonempty left part stays nonempty under append. -/
theorem strAppendNeEmpty (a b : String) (h : a ≠ "") : a ++ b ≠ "" := by
  intro hc
  apply h
  have h2 := congrArg String.data hc
  rw [String.data_append] at h2
  cases ha : a.data with
  | nil => exact congrArg String.mk ha
  | cons c cs => rw [ha] at h2; simp at h2

/-- Claim C5: after any `callTool` or `listTools` invocation that ends in an
exception, `isAvailable()` returns false (so the next attempt must re-run
`initialize()`); and from an unavailable state the flag becomes true only
through an `initialize()` whose connectivity probe succeeds. -/
theorem smitheryAvailabilityInvariant (cfg : SmitheryCfg) (avail : Bool)
    (op : SmOp) :
    (isCallOp op = true → smThrows avail op = true →
      SmitheryClient.isAvailable cfg (smStep avail op) = false) ∧
    (avail = false → smStep avail op = true →
      ∃ e, op = .initOp e ∧ SmitheryClient.initializeClient e = true) := by
  constructor
  · intro _hop hthr
    cases op with
    | initOp e => simp [smThrows] at hthr
    | listToolsOp e =>
      obtain ⟨cok, cerr, cout⟩ := e
      cases avail <;> cases cok <;> cases cout <;>
        simp_all [smThrows, smStep, SmitheryClient.listToolsStep,
          SmitheryClient.isAvailable]
    | callToolOp n e =>
      obtain ⟨cok, cerr, cout⟩ := e
      cases avail <;> cases cok <;> cases cout <;>
        simp_all [smThrows, smStep, SmitheryClient.callToolStep,
          SmitheryClient.isAvailable]
  · intro hav hstep
    subst hav
    cases op with
    | initOp e =>
      exact ⟨e, rfl, by simpa [smStep] using hstep⟩
    | listToolsOp e =>
      simp [smStep, SmitheryClient.listToolsStep] at hstep
    | callToolOp n e =>
      simp [smStep, SmitheryClient.callToolStep] at hstep

/-- Witness for C5 at a concrete input: a `callTool` whose MCP call throws
flips availability to false. -/
theorem smitheryAvailabilityInvariant_witness :
    SmitheryClient.isAvailable ⟨some "k", some "p"⟩
      (smStep true (.callToolOp "t" ⟨true, "", .error "boom"⟩)) = false :=
  (smitheryAvailabilityInvariant ⟨some "k", some "p"⟩ true
    (.callToolOp "t" ⟨true, "", .error "boom"⟩)).1 (by decide) (by decide)

/-- Claim C6: every event of one `callTool` run refers to the session id
allocated for that run; when the client is up the fresh session is opened
and closed in the `finally` block — the event list
`[connect, call, close]` is the same whether the MCP call succeeds or
throws — and the id counter advances, so no later call can reuse the
session. -/
theorem smitheryFreshSessionPerCall (avail : Bool) (name : String)
    (eff : CallEffects) (sid : Nat) :
    (∀ ev ∈ (SmitheryClient.callTool avail name eff sid).2.2.1,
      sessId ev = sid) ∧
    (avail = true → eff.connectOk = true →
      (SmitheryClient.callTool avail name eff sid).2.2.1 =
        [.connect sid true, .call sid, .close sid] ∧
      (SmitheryClient.callTool avail name eff sid).2.2.2 = sid + 1) ∧
    (avail = true → eff.connectOk = false →
      (SmitheryClient.callTool avail name eff sid).2.2.1 =
        [.connect sid false] ∧
      (SmitheryClient.callTool avail name eff sid).2.2.2 = sid + 1) ∧
    (avail = false →
      (SmitheryClient.callTool avail name eff sid).2.2.1 = [] ∧
      (SmitheryClient.callTool avail name eff sid).2.2.2 = sid) := by
  obtain ⟨cok, cerr, cout⟩ := eff
  cases avail <;> cases cok <;> cases cout <;>
    simp [SmitheryClient.callTool, sessId]

/-- Witness for C6 at a concrete input: a call whose MCP invocation throws
still closes session 5 before returning, and the next call would get a
fresh id. -/
theorem smitheryFreshSessionPerCall_witness :
    (SmitheryClient.callTool true "t" ⟨true, "", .error "boom"⟩ 5).2.2.1 =
      [.connect 5 true, .call 5, .close 5] ∧
    (SmitheryClient.callTool true "t" ⟨true, "", .error "boom"⟩ 5).2.2.2 = 6 :=
  (smitheryFreshSessionPerCall true "t" ⟨true, "", .error "boom"⟩ 5).2.1
    rfl rfl

/-- Claim C8: whenever the upstream AI call throws, the gateway's reply is the
assistant-role error message `{role: "assistant", content: <human-readable
text>, created_at, error: true}` (relayed with HTTP 500), not a raw
exception or a separate error schema. -/
theorem gatewayErrorIsAssistantMessage (now : Nat) (e : String) :
    agentUiChatEndpoint now (.error e) =
      ⟨500, ⟨"assistant", "Sorry, I encountered an error: " ++ e, now,
        none, none, true⟩⟩ := by
  simp [agentUiChatEndpoint, handleAgentUiRequest]

/-- Claim C2: a tool name matching no switch case produces the normal failure
envelope `{success: false, error: "Unknown tool: <name>", tool: <name>}`,
leaves every connection flag untouched, makes no external call, and hence
has elapsed external time 0 under any duration assignment; the thrown
`Unknown tool` error never escapes the endpoint's catch. -/
theorem unknownToolNormalFailure (name : String) (params : Params)
    (env : Env) (st : Conn) (o : ServerOracle)
    (h : branchOf name = .unknown) :
    apiToolsCall name params env st o =
      ⟨⟨500, false, none, some ("Unknown tool: " ++ name), name⟩, st, []⟩ ∧
    (∀ dur, elapsedOf (apiToolsCall name params env st o).calls dur = 0) := by
  have hne : ("Unknown tool: " ++ name) ≠ "" :=
    strAppendNeEmpty _ _ (by decide)
  constructor
  · simp [apiToolsCall, h, wrapEnvelope, jsOrStr, hne]
  · intro dur
    simp [apiToolsCall, h, wrapEnvelope, elapsedOf]

/-- Witness for C2 at the spec's concrete scenario: the name
`unknown-tool-xyz` is not resolvable and yields the failure envelope with
no external call. -/
theorem unknownToolNormalFailure_witness :
    branchOf "unknown-tool-xyz" = .unknown ∧
    apiToolsCall "unknown-tool-xyz" [] envA stA oracleA =
      ⟨⟨500, false, none, some ("Unknown tool: " ++ "unknown-tool-xyz"),
        "unknown-tool-xyz"⟩, stA, []⟩ :=
  ⟨by decide,
    (unknownToolNormalFailure "unknown-tool-xyz" [] envA stA oracleA
      (by decide)).1⟩

/-- Claim C1: the chat-mode tool loop collects exactly one result per parsed
request, in request order.  For every batch, the collected list has the
batch's length; the i-th entry is tagged with the i-th request's tool
name; it is tagged successful exactly when the name was found among the
available tools and the HTTP round trip returned a success body (whose
payload it then carries); and every failure entry carries an error
message — no request is dropped on any of the four control paths. -/
theorem cliLoopNoSilentDrop (availNames : List String)
    (batch : List (ChatToolCall × Except String Envelope)) :
    (collectToolResults availNames batch).length = batch.length ∧
    (∀ i (h : i < batch.length)
        (h2 : i < (collectToolResults availNames batch).length),
      ((collectToolResults availNames batch)[i]).toolName =
        (batch[i]).1.name ∧
      (((collectToolResults availNames batch)[i]).success = true ↔
        ((batch[i]).1.name ∈ availNames ∧
          ∃ d, (batch[i]).2 = .ok d ∧ d.success = true ∧
            ((collectToolResults availNames batch)[i]).result = d.result)) ∧
      (((collectToolResults availNames batch)[i]).success = false →
        ∃ m, ((collectToolResults availNames batch)[i]).error = some m)) := by
  refine ⟨by simp [collectToolResults], ?_⟩
  intro i h h2
  have hg : (collectToolResults availNames batch)[i] =
      execChatToolCall availNames (batch[i]).1 (batch[i]).2 := by
    simp [collectToolResults]
  rw [hg]
  by_cases hm : (batch[i]).1.name ∈ availNames
  · cases hout : (batch[i]).2 with
    | error m => simp [execChatToolCall, hm, hout]
    | ok d =>
      by_cases hs : d.success = true
      · simp [execChatToolCall, hm, hout, hs]
      · simp [execChatToolCall, hm, hout, hs, jsOrStr]
  · simp [execChatToolCall, hm]

/-- A four-request batch exercising all loop paths: server success, server
failure body, HTTP throw, and unknown tool name. -/
def cliBatchW : List (ChatToolCall × Except String Envelope) :=
  [(⟨"rugcheck", []⟩, .ok ⟨200, true, some (.rawPayload "v"), none, "rugcheck"⟩),
   (⟨"rugcheck", []⟩, .ok ⟨500, false, none, some "bad", "rugcheck"⟩),
   (⟨"rugcheck", []⟩, .error "Request failed with status code 500"),
   (⟨"nope", []⟩, .error "never sent")]

/-- The available tool names in the witness scenario. -/
def cliAvailW : List String := ["rugcheck", "brave-search"]

/-- Witness for C1 at a concrete batch: four requests yield four results,
and the endpoint-reported failure at index 1 carries an error message. -/
theorem cliLoopNoSilentDrop_witness :
    (collectToolResults cliAvailW cliBatchW).length = cliBatchW.length ∧
    ∃ m, ((collectToolResults cliAvailW cliBatchW).get ⟨1, by decide⟩).error =
      some m :=
  ⟨(cliLoopNoSilentDrop cliAvailW cliBatchW).1,
   ((cliLoopNoSilentDrop cliAvailW cliBatchW).2 1 (by decide) (by decide)).2.2
     (by decide)⟩

/-- Counterexample to C7 as stated: the gateway's response construction
reads the wall clock, so two runs on the same AI turn (and the same — here
empty — set of tool results) at different clock readings produce different
output messages. -/
theorem normalizationClockSensitive :
    handleAgentUiRequest 0 (.ok ⟨some "hi", none, none, none⟩) ≠
      handleAgentUiRequest 1 (.ok ⟨some "hi", none, none, none⟩) := by
  decide

/-- Claim C7 as amended: the conversion `convertCLIMessagesToAgentUI` consults
nothing but its argument, and the clock influences the gateway's response
construction only through the timestamp-derived fields: two runs on the
same AI outcome agree on role, content, usage and the error marker, and
coincide entirely whenever the clock readings coincide. -/
theorem normalizationDeterministicModuloClock (t₁ t₂ : Nat)
    (ai : Except String AIResponse) :
    (handleAgentUiRequest t₁ ai).role = (handleAgentUiRequest t₂ ai).role ∧
    (handleAgentUiRequest t₁ ai).content =
      (handleAgentUiRequest t₂ ai).content ∧
    (handleAgentUiRequest t₁ ai).usage = (handleAgentUiRequest t₂ ai).usage ∧
    (handleAgentUiRequest t₁ ai).error = (handleAgentUiRequest t₂ ai).error ∧
    (t₁ = t₂ → handleAgentUiRequest t₁ ai = handleAgentUiRequest t₂ ai ∧
      ∀ msgs : List CLIBackendMessage,
        convertCLIMessagesToAgentUI msgs = convertCLIMessagesToAgentUI msgs) := by
  refine ⟨?_, ?_, ?_, ?_, fun he => ?_⟩
  · cases ai <;> simp [handleAgentUiRequest]
  · cases ai <;> simp [handleAgentUiRequest]
  · cases ai <;> simp [handleAgentUiRequest]
  · cases ai <;> simp [handleAgentUiRequest]
  · subst he
    exact ⟨rfl, fun _ => rfl⟩

/-- Witness for C7 (amended) at a concrete input: equal clock readings
give identical messages, and differing readings still agree on content. -/
theorem normalizationDeterministicModuloClock_witness :
    (handleAgentUiRequest 0 (.ok ⟨some "hi", none, none, none⟩)).content =
      (handleAgentUiRequest 1 (.ok ⟨some "hi", none, none, none⟩)).content ∧
    handleAgentUiRequest 7 (.ok ⟨some "hi", none, none, none⟩) =
      handleAgentUiRequest 7 (.ok ⟨some "hi", none, none, none⟩) :=
  ⟨(normalizationDeterministicModuloClock 0 1
      (.ok ⟨some "hi", none, none, none⟩)).2.1,
   ((normalizationDeterministicModuloClock 7 7
      (.ok ⟨some "hi", none, none, none⟩)).2.2.2.2 rfl).1⟩

/-- A concrete local Brave API reply. -/
def braveDataC : BraveData :=
  ⟨some ⟨some 1, some [⟨"Cat", "A cat", "https://example.com"⟩]⟩⟩

/-- Oracle: every hosted call throws, the local Brave API succeeds with
`braveDataC`. -/
def oracleC : ServerOracle :=
  ⟨true, true, true,
    fun _ _ => .error "boom",
    fun _ _ => .error "boom",
    fun _ _ => .error "boom",
    fun _ => .ok braveDataC,
    fun _ => .error "x", fun _ => .error "x", fun _ => .error "x",
    fun _ => .error "x"⟩

/-- Counterexample to C4 as stated: with the hosted search throwing and a
local Brave key configured, the endpoint nevertheless reports failure when
the local search call itself throws — the local fallback succeeding is a
necessary extra hypothesis. -/
theorem braveHostedFallback_cex :
    envA.braveApiKey.isSome = true ∧
    stA.smithery = true ∧
    oracleB.smitheryCall "brave_web_search" [("query", "cats")] =
      .error "boom" ∧
    (apiToolsCall "brave_web_search" [("query", "cats")] envA stA
      oracleB).resp.success = false :=
  ⟨by decide, by decide, rfl, by decide⟩

/-- Claim C4 as amended: when the hosted search throws during a
`brave_web_search` call on a connected backend, the connected flag is
cleared; if a local Brave key is configured and the local search call
succeeds, the endpoint returns success with the result sourced
`local-fallback`; if the local call also throws, or no local key is
configured, the call fails instead (flag still cleared). -/
theorem braveHostedFallback (params : Params) (env : Env) (st : Conn)
    (o : ServerOracle) (e : String)
    (hconn : st.smithery = true)
    (herr : o.smitheryCall "brave_web_search" params = .error e) :
    (env.braveApiKey.isSome = true →
      (∀ d, o.braveApi params = .ok d →
        (apiToolsCall "brave_web_search" params env st o).resp.success = true ∧
        (apiToolsCall "brave_web_search" params env st o).resp.result =
          some (.search (getParam params "query") (braveTotal d)
            (braveItems d) "local-fallback") ∧
        (apiToolsCall "brave_web_search" params env st o).conn.smithery =
          false) ∧
      (∀ e2, o.braveApi params = .error e2 →
        (apiToolsCall "brave_web_search" params env st o).resp.success =
          false ∧
        (apiToolsCall "brave_web_search" params env st o).conn.smithery =
          false)) ∧
    (env.braveApiKey = none →
      (apiToolsCall "brave_web_search" params env st o).resp.success = false ∧
      (apiToolsCall "brave_web_search" params env st o).conn.smithery =
        false) := by
  have hb : branchOf "brave_web_search" = .brave := by decide
  refine ⟨fun hkey => ⟨fun d hd => ?_, fun e2 hd => ?_⟩, fun hkey => ?_⟩
  · simp [apiToolsCall, hb, braveBranch, hconn, herr, braveClientSearch, hd,
      hkey, wrapEnvelope]
  · simp [apiToolsCall, hb, braveBranch, hconn, herr, braveClientSearch, hd,
      hkey, wrapEnvelope, jsOrStr]
  · simp [apiToolsCall, hb, braveBranch, hconn, herr, hkey, wrapEnvelope,
      jsOrStr]

/-- Witness for C4 (amended) at a concrete input: hosted throw plus
successful local call yields a `local-fallback`-sourced success and clears
the connected flag. -/
theorem braveHostedFallback_witness :
    (apiToolsCall "brave_web_search" [("query", "cats")] envA stA
      oracleC).resp.success = true ∧
    (apiToolsCall "brave_web_search" [("query", "cats")] envA stA
      oracleC).resp.result =
      some (.search (getParam [("query", "cats")] "query")
        (braveTotal braveDataC) (braveItems braveDataC) "local-fallback") ∧
    (apiToolsCall "brave_web_search" [("query", "cats")] envA stA
      oracleC).conn.smithery = false :=
  ((braveHostedFallback [("query", "cats")] envA stA oracleC "boom" rfl
    rfl).1 rfl).1 braveDataC rfl

/-- Projection: the endpoint wrapper preserves the branch's call trace. -/
theorem wrapEnvelope_calls (n : String) (b : BranchOut) :
    (wrapEnvelope n b).calls = b.2.2 := by
  rcases b with ⟨r, st, calls⟩
  cases r <;> rfl

/-- Projection: the endpoint wrapper preserves the branch's connection
state. -/
theorem wrapEnvelope_conn (n : String) (b : BranchOut) :
    (wrapEnvelope n b).conn = b.2.1 := by
  rcases b with ⟨r, st, calls⟩
  cases r <;> rfl

/-- Projection: the reply's success flag is the branch outcome's tag. -/
theorem wrapEnvelope_success (n : String) (b : BranchOut) :
    (wrapEnvelope n b).resp.success = branchOk b.1 := by
  rcases b with ⟨r, st, calls⟩
  cases r <;> rfl

/-- Projection: the reply's result field is the branch outcome's payload. -/
theorem wrapEnvelope_result (n : String) (b : BranchOut) :
    (wrapEnvelope n b).resp.result = b.1.toOption := by
  rcases b with ⟨r, st, calls⟩
  cases r <;> rfl

/-- Two stock-tool spellings with the same hyphen-normalized name drive
the stock branch identically up to the (raw-name-bearing) error texts and
result shaping: same external calls, same connection state, same
success/failure tag. -/
theorem stockBranchNameInvariant (n₁ n₂ : String) (params : Params)
    (env : Env) (st : Conn) (o : ServerOracle)
    (h : normalizeStockName n₁ = normalizeStockName n₂) :
    (stockBranch n₁ params env st o).2.2 =
      (stockBranch n₂ params env st o).2.2 ∧
    (stockBranch n₁ params env st o).2.1 =
      (stockBranch n₂ params env st o).2.1 ∧
    branchOk (stockBranch n₁ params env st o).1 =
      branchOk (stockBranch n₂ params env st o).1 := by
  simp only [stockBranch]
  rw [h]
  rcases hcall : (if st.stock then (true, st, ([] : List ExtCall))
      else runInitStock env o st) with ⟨conn0, st0, calls0⟩
  simp only [hcall]
  cases conn0
  · simp [branchOk]
  · cases hak : env.alphaVantageApiKey with
    | none => simp [branchOk]
    | some key =>
      cases hsc : o.stockCall (normalizeStockName n₂)
          (setParam params "alphaVantageApiKey" key) with
      | ok r => simp [hsc, branchOk]
      | error e => simp [hsc, branchOk]

/-- When additionally the two spellings shape results the same way, the
stock branch produces payloads of the same shape. -/
theorem stockBranchShapeInvariant (n₁ n₂ : String) (params : Params)
    (env : Env) (st : Conn) (o : ServerOracle)
    (h : normalizeStockName n₁ = normalizeStockName n₂)
    (hf : ∀ pd, resultShape (formatStock n₁ params pd) =
      resultShape (formatStock n₂ params pd)) :
    ((stockBranch n₁ params env st o).1.toOption.map resultShape) =
      ((stockBranch n₂ params env st o).1.toOption.map resultShape) := by
  simp only [stockBranch]
  rw [h]
  rcases hcall : (if st.stock then (true, st, ([] : List ExtCall))
      else runInitStock env o st) with ⟨conn0, st0, calls0⟩
  simp only [hcall]
  cases conn0
  · simp [Except.toOption]
  · cases hak : env.alphaVantageApiKey with
    | none => simp [Except.toOption]
    | some key =>
      cases hsc : o.stockCall (normalizeStockName n₂)
          (setParam params "alphaVantageApiKey" key) with
      | ok r => simp [hsc, hf, Except.toOption]
      | error e => simp [hsc, Except.toOption]

/-- Counterexample to C3 as stated: with the hosted search connected and a
local key present, the two spellings of the search capability execute
different backends (`brave-search` goes to the local Brave API,
`brave_web_search` to the hosted backend) with differently sourced
results; and the spellings `get-stock-data` / `get_stock_data`, though
they reach the same hosted tool, produce results of different shapes (the
underscored one misses the `symbol` field). -/
theorem aliasPairNotInterchangeable_cex :
    (apiToolsCall "brave-search" [("query", "cats")] envA stA oracleA).calls ≠
      (apiToolsCall "brave_web_search" [("query", "cats")] envA stA
        oracleA).calls ∧
    (apiToolsCall "brave-search" [("query", "cats")] envA stA
        oracleA).resp.result ≠
      (apiToolsCall "brave_web_search" [("query", "cats")] envA stA
        oracleA).resp.result ∧
    ((apiToolsCall "get-stock-data" [("symbol", "AAPL")] envA stA
        oracleA).resp.result.map resultShape = some "stockSym") ∧
    ((apiToolsCall "get_stock_data" [("symbol", "AAPL")] envA stA
        oracleA).resp.result.map resultShape = some "stockGeneric") := by
  decide

/-- Claim C3 as amended: each stock-analysis alias pair dispatches to the same
underlying hosted tool — identical external calls (the hosted name is
hyphen-normalized), connection effects and success tag for both
spellings — and the `alerts` and `daily` pairs also produce results of
the same shape; but `get_stock_data` falls into the generic result shape
while `get-stock-data` gets the symbol-bearing one, and the
`brave-search` / `brave_web_search` pair may execute different backends
(the hosted backend is used only for the underscored spelling). -/
theorem stockAliasSameUnderlyingTool (params : Params) (env : Env)
    (st : Conn) (o : ServerOracle) :
    (∀ p ∈ [("get-stock-data", "get_stock_data"),
            ("get-stock-alerts", "get_stock_alerts"),
            ("get-daily-stock-data", "get_daily_stock_data")],
      (apiToolsCall p.1 params env st o).calls =
        (apiToolsCall p.2 params env st o).calls ∧
      (apiToolsCall p.1 params env st o).conn =
        (apiToolsCall p.2 params env st o).conn ∧
      (apiToolsCall p.1 params env st o).resp.success =
        (apiToolsCall p.2 params env st o).resp.success) ∧
    ((apiToolsCall "get-stock-alerts" params env st o).resp.result.map
        resultShape =
      (apiToolsCall "get_stock_alerts" params env st o).resp.result.map
        resultShape) ∧
    ((apiToolsCall "get-daily-stock-data" params env st o).resp.result.map
        resultShape =
      (apiToolsCall "get_daily_stock_data" params env st o).resp.result.map
        resultShape) := by
  have main : ∀ n₁ n₂, branchOf n₁ = .stockB → branchOf n₂ = .stockB →
      normalizeStockName n₁ = normalizeStockName n₂ →
      (apiToolsCall n₁ params env st o).calls =
        (apiToolsCall n₂ params env st o).calls ∧
      (apiToolsCall n₁ params env st o).conn =
        (apiToolsCall n₂ params env st o).conn ∧
      (apiToolsCall n₁ params env st o).resp.success =
        (apiToolsCall n₂ params env st o).resp.success := by
    intro n₁ n₂ hb1 hb2 hn
    have hinv := stockBranchNameInvariant n₁ n₂ params env st o hn
    simp only [apiToolsCall, hb1, hb2, wrapEnvelope_calls, wrapEnvelope_conn,
      wrapEnvelope_success]
    exact hinv
  have shape : ∀ n₁ n₂, branchOf n₁ = .stockB → branchOf n₂ = .stockB →
      normalizeStockName n₁ = normalizeStockName n₂ →
      (∀ pd, resultShape (formatStock n₁ params pd) =
        resultShape (formatStock n₂ params pd)) →
      (apiToolsCall n₁ params env st o).resp.result.map resultShape =
        (apiToolsCall n₂ params env st o).resp.result.map resultShape := by
    intro n₁ n₂ hb1 hb2 hn hf
    have hinv := stockBranchShapeInvariant n₁ n₂ params env st o hn hf
    simp only [apiToolsCall, hb1, hb2, wrapEnvelope_result]
    exact hinv
  refine ⟨?_, ?_, ?_⟩
  · intro p hp
    simp only [List.mem_cons, List.not_mem_nil, or_false] at hp
    rcases hp with rfl | rfl | rfl
    · exact main _ _ (by decide) (by decide) (by decide)
    · exact main _ _ (by decide) (by decide) (by decide)
    · exact main _ _ (by decide) (by decide) (by decide)
  · refine shape _ _ (by decide) (by decide) (by decide) ?_
    intro pd
    simp [formatStock, resultShape,
      (by decide : jsIncludes "get-stock-alerts" "stock-data" = false),
      (by decide : jsIncludes "get-stock-alerts" "daily" = false),
      (by decide : jsIncludes "get-stock-alerts" "alerts" = true),
      (by decide : jsIncludes "get_stock_alerts" "stock-data" = false),
      (by decide : jsIncludes "get_stock_alerts" "daily" = false),
      (by decide : jsIncludes "get_stock_alerts" "alerts" = true)]
  · refine shape _ _ (by decide) (by decide) (by decide) ?_
    intro pd
    simp [formatStock, resultShape,
      (by decide : jsIncludes "get-daily-stock-data" "stock-data" = true),
      (by decide : jsIncludes "get_daily_stock_data" "stock-data" = false),
      (by decide : jsIncludes "get_daily_stock_data" "daily" = true)]

/-- Witness for C3 (amended) at a concrete input: both spellings of the
stock-data tool make the same (hyphen-named) hosted call and both
succeed. -/
theorem stockAliasSameUnderlyingTool_witness :
    (apiToolsCall "get-stock-data" [("symbol", "AAPL")] envA stA
        oracleA).calls =
      (apiToolsCall "get_stock_data" [("symbol", "AAPL")] envA stA
        oracleA).calls ∧
    (apiToolsCall "get-stock-data" [("symbol", "AAPL")] envA stA
        oracleA).resp.success =
      (apiToolsCall "get_stock_data" [("symbol", "AAPL")] envA stA
        oracleA).resp.success :=
  ⟨((stockAliasSameUnderlyingTool [("symbol", "AAPL")] envA stA oracleA).1
      ("get-stock-data", "get_stock_data") (by simp)).1,
   ((stockAliasSameUnderlyingTool [("symbol", "AAPL")] envA stA oracleA).1
      ("get-stock-data", "get_stock_data") (by simp)).2.2⟩

/-- Counterexample to C9 as stated: calling `brave-search` with an empty
argument object — violating the tool's schema, whose `query` field is
required — does not short-circuit: the external search call is still made
and the call succeeds, rather than failing with `InvalidArguments` and no
external call. -/
theorem noValidation_cex :
    validateArguments ["query"] [] = false ∧
    (apiToolsCall "brave-search" [] envC stC oracleA).calls =
      [.braveLocal []] ∧
    (apiToolsCall "brave-search" [] envC stC oracleA).resp.success = true := by
  decide

/-- Claim C9 as amended: the endpoint performs no schema validation before
dispatch.  Even for arguments violating the declared schema (the unused
`hviol` hypothesis exhibits the violation), the `brave-search` dispatch
proceeds to exactly one external search call, its outcome alone decides
success, and no validation-derived state change occurs. -/
theorem noPreDispatchValidation (params : Params) (env : Env) (st : Conn)
    (o : ServerOracle)
    (hviol : validateArguments ["query"] params = false)
    (hkey : env.braveApiKey.isSome = true)
    (hcreds : env.smitheryCreds = false)
    (hconn : st.smithery = false) :
    (apiToolsCall "brave-search" params env st o).calls =
      [.braveLocal params] ∧
    ((apiToolsCall "brave-search" params env st o).resp.success = true ↔
      ∃ d, o.braveApi params = .ok d) ∧
    (apiToolsCall "brave-search" params env st o).conn = st := by
  have hb : branchOf "brave-search" = .brave := by decide
  cases hd : o.braveApi params with
  | ok d =>
    simp [apiToolsCall, hb, braveBranch, hconn, hcreds, runInitSmithery,
      hkey, braveClientSearch, hd, wrapEnvelope]
  | error e =>
    simp [apiToolsCall, hb, braveBranch, hconn, hcreds, runInitSmithery,
      hkey, braveClientSearch, hd, wrapEnvelope, jsOrStr]

/-- Witness for C9 (amended) at a concrete input: schema-violating empty
arguments still trigger the external call and leave state unchanged. -/
theorem noPreDispatchValidation_witness :
    (apiToolsCall "brave-search" [] envC stC oracleA).calls =
      [.braveLocal []] ∧
    (apiToolsCall "brave-search" [] envC stC oracleA).conn = stC :=
  ⟨(noPreDispatchValidation [] envC stC oracleA (by decide) rfl rfl rfl).1,
   (noPreDispatchValidation [] envC stC oracleA (by decide) rfl rfl rfl).2.2⟩

/-- The smithery block leaves the other backends' flags alone. -/
theorem smitheryListBlock_keeps (env : Env) (avail : ClientAvail)
    (o : ListOracle) (st : Conn) :
    (smitheryListBlock env avail o st).2.ordiscan = st.ordiscan ∧
    (smitheryListBlock env avail o st).2.stock = st.stock := by
  unfold smitheryListBlock
  split
  · split <;> exact ⟨rfl, rfl⟩
  · exact ⟨rfl, rfl⟩

/-- The ordiscan block leaves the other backends' flags alone. -/
theorem ordiscanListBlock_keeps (env : Env) (avail : ClientAvail)
    (o : ListOracle) (st : Conn) :
    (ordiscanListBlock env avail o st).2.smithery = st.smithery ∧
    (ordiscanListBlock env avail o st).2.stock = st.stock := by
  unfold ordiscanListBlock
  split
  · split <;> exact ⟨rfl, rfl⟩
  · exact ⟨rfl, rfl⟩

/-- The stock block leaves the other backends' flags alone. -/
theorem stockListBlock_keeps (env : Env) (avail : ClientAvail)
    (o : ListOracle) (st : Conn) :
    (stockListBlock env avail o st).2.smithery = st.smithery ∧
    (stockListBlock env avail o st).2.ordiscan = st.ordiscan := by
  unfold stockListBlock
  split
  · split <;> exact ⟨rfl, rfl⟩
  · exact ⟨rfl, rfl⟩

/-- Every entry the smithery block contributes is tagged
`source: 'smithery'`. -/
theorem smitheryListBlock_source (env : Env) (avail : ClientAvail)
    (o : ListOracle) (st : Conn) :
    ∀ t ∈ (smitheryListBlock env avail o st).1,
      t.source = some "smithery" := by
  intro t ht
  unfold smitheryListBlock at ht
  split at ht
  · split at ht
    · simp at ht
      obtain ⟨r, _, hr⟩ := ht
      rw [← hr]
      rfl
    · simp at ht
  · simp at ht

/-- Every entry the ordiscan block contributes is tagged
`source: 'ordiscan'`. -/
theorem ordiscanListBlock_source (env : Env) (avail : ClientAvail)
    (o : ListOracle) (st : Conn) :
    ∀ t ∈ (ordiscanListBlock env avail o st).1,
      t.source = some "ordiscan" := by
  intro t ht
  unfold ordiscanListBlock at ht
  split at ht
  · split at ht
    · simp at ht
      obtain ⟨r, _, hr⟩ := ht
      rw [← hr]
      rfl
    · simp at ht
  · simp at ht

/-- Every entry the stock block contributes is tagged
`source: 'stock-analysis'`. -/
theorem stockListBlock_source (env : Env) (avail : ClientAvail)
    (o : ListOracle) (st : Conn) :
    ∀ t ∈ (stockListBlock env avail o st).1,
      t.source = some "stock-analysis" := by
  intro t ht
  unfold stockListBlock at ht
  split at ht
  · split at ht
    · simp at ht
      obtain ⟨r, _, hr⟩ := ht
      rw [← hr]
      rfl
    · simp at ht
  · simp at ht

/-- Claim C10: the tool-listing endpoint isolates hosted-backend faults.  The
static tools always lead the response.  If a connected backend's fetch
throws, the endpoint still responds (the handler always reaches the final
reply): that backend's connected flag is cleared, it contributes no
entries, everything else gathered stays — after a smithery failure the
local search fallback descriptor is appended whenever a local key is
present, and after an ordiscan failure a connected smithery backend's
tools remain in the response. -/
theorem toolsListFaultIsolation (env : Env) (st : Conn)
    (avail : ClientAvail) (o : ListOracle) :
    staticTools <+: (apiToolsList env st avail o).1 ∧
    (∀ e, st.smithery = true → clientIsAvail env avail.smithery = true →
      o.smitheryTools = .error e →
      (apiToolsList env st avail o).2.smithery = false ∧
      (∀ t ∈ (apiToolsList env st avail o).1, t.source ≠ some "smithery") ∧
      (env.braveApiKey.isSome = true →
        localBraveEntry ∈ (apiToolsList env st avail o).1)) ∧
    (∀ e, st.ordiscan = true → env.ordiscanApiKey.isSome = true →
      clientIsAvail env avail.ordiscan = true → o.ordiscanTools = .error e →
      (apiToolsList env st avail o).2.ordiscan = false ∧
      (∀ t ∈ (apiToolsList env st avail o).1, t.source ≠ some "ordiscan") ∧
      (∀ ts, o.smitheryTools = .ok ts → st.smithery = true →
        clientIsAvail env avail.smithery = true →
        ∀ r ∈ ts,
          remoteEntry "smithery" r ∈ (apiToolsList env st avail o).1)) := by
  have hstatic : ∀ t ∈ staticTools, t.source = none := by decide
  refine ⟨?_, ?_, ?_⟩
  · unfold apiToolsList
    exact ((((List.prefix_append _ _).trans (List.prefix_append _ _)).trans
      (List.prefix_append _ _)).trans (List.prefix_append _ _))
  · intro e hsm hca herr
    have hs : smitheryListBlock env avail o st =
        ([], { st with smithery := false }) := by
      unfold smitheryListBlock
      rw [hsm, hca, herr]
      simp
    have hsm3 : (apiToolsList env st avail o).2.smithery = false := by
      unfold apiToolsList
      simp only [hs]
      rw [(stockListBlock_keeps env avail o _).1,
        (ordiscanListBlock_keeps env avail o _).1]
    refine ⟨hsm3, ?_, ?_⟩
    · intro t ht
      unfold apiToolsList at ht
      simp only [hs, List.mem_append] at ht
      rcases ht with ((((h1 | h1) | h1) | h1) | h1)
      · rw [hstatic t h1]; simp
      · simp at h1
      · rw [ordiscanListBlock_source env avail o _ t h1]; simp
      · rw [stockListBlock_source env avail o _ t h1]; simp
      · split at h1
        · simp at h1
          rw [h1]
          simp [localBraveEntry]
        · simp at h1
    · intro hkey
      unfold apiToolsList
      simp only [hs, List.mem_append]
      have hsf : (stockListBlock env avail o
          (ordiscanListBlock env avail o
            ({ st with smithery := false })).2).2.smithery = false := by
        rw [(stockListBlock_keeps env avail o _).1,
          (ordiscanListBlock_keeps env avail o _).1]
      rw [hsf, hkey]
      simp
  · intro e hod hkey hca herr
    rcases hs : smitheryListBlock env avail o st with ⟨sl, st1⟩
    have hst1 : st1.ordiscan = st.ordiscan := by
      have h := (smitheryListBlock_keeps env avail o st).1
      rw [hs] at h
      exact h
    have hob : ordiscanListBlock env avail o st1 =
        ([], { st1 with ordiscan := false }) := by
      unfold ordiscanListBlock
      rw [hst1, hod, hkey, hca, herr]
      simp
    have hof : (apiToolsList env st avail o).2.ordiscan = false := by
      unfold apiToolsList
      simp only [hs, hob]
      rw [(stockListBlock_keeps env avail o _).2]
    refine ⟨hof, ?_, ?_⟩
    · intro t ht
      unfold apiToolsList at ht
      simp only [hs, hob, List.mem_append] at ht
      rcases ht with ((((h1 | h1) | h1) | h1) | h1)
      · rw [hstatic t h1]; simp
      · have h := smitheryListBlock_source env avail o st t
        rw [hs] at h
        rw [h h1]
        simp
      · simp at h1
      · rw [stockListBlock_source env avail o _ t h1]; simp
      · split at h1
        · simp at h1
          rw [h1]
          simp [localBraveEntry]
        · simp at h1
    · intro ts hts hsm hcas r hr
      have hs2 : smitheryListBlock env avail o st =
          (ts.map (remoteEntry "smithery"), st) := by
        unfold smitheryListBlock
        rw [hsm, hcas, hts]
        simp
      unfold apiToolsList
      simp only [hs2, List.mem_append]
      left; left; left; right
      exact List.mem_map_of_mem _ hr

/-- Environment with all keys present, for the listing witness. -/
def envW : Env := ⟨true, some "OK", some "AK", some "BK"⟩

/-- All backends connected, for the listing witness. -/
def stW : Conn := ⟨true, true, true⟩

/-- All clients available, for the listing witness. -/
def availW : ClientAvail := ⟨true, true, true⟩

/-- Listing oracle: the smithery fetch throws, the others succeed. -/
def listOracleW : ListOracle :=
  ⟨.error "fetch failed",
   .ok [⟨"ordiscan_main", "d", [], []⟩],
   .ok [⟨"get-stock-data", "d", [], []⟩]⟩

/-- Witness for C10 at a concrete input: with the smithery fetch throwing,
the endpoint still answers, the smithery flag ends false, and the local
search descriptor is appended. -/
theorem toolsListFaultIsolation_witness :
    (apiToolsList envW stW availW listOracleW).2.smithery = false ∧
    localBraveEntry ∈ (apiToolsList envW stW availW listOracleW).1 :=
  ⟨((toolsListFaultIsolation envW stW availW listOracleW).2.1 "fetch failed"
      rfl rfl rfl).1,
   ((toolsListFaultIsolation envW stW availW listOracleW).2.1 "fetch failed"
      rfl rfl rfl).2.2 rfl⟩
